import Mathlib

/-!
Shallow embedding of the sse-redis service core:
`src/connection-registry.js` (ConnectionEntry, ConnectionRegistry) and
`src/redis-subscriber.js` (RedisSubscriber message routing and retry policy).

Modelling choices:
* JS objects live in an explicit heap (`World.heap`), addressed by `Nat`
  entry ids, so that an evicted `ConnectionEntry` object remains observable
  after it has been removed from the registry `Map`, exactly as in JS.
* The registry's `Map` (`this.connections`) is an insertion-ordered
  association list with unique keys; `set` updates in place or appends,
  `delete` removes the key.
* `new Date()` / timers are modelled by a logical clock `World.now`;
  each entry's `setInterval` handle is the entry id, wrapped in `Option`
  (`null` = `none`).
* The SSE transport (`this.response`) is a `Transport` with a scripted
  list of outcomes for successive `write` calls: `ok` (write returned
  true), `failed` (returned false), `threw` (write threw).  An exhausted
  script means writes keep succeeding.
* Side effects that the claims talk about (transport writes, `response.end`,
  `clearInterval`, registry lookups by the router) are returned as an
  explicit `Effect` trace; `console.log` calls are not modelled.
* Operations are total Lean functions: JS exceptions that the source
  catches locally (`sendEvent`, heartbeat, `handleMessage`) are data
  (`WriteOutcome.threw`, `RawMessage.malformed`), not Lean failures.
-/

namespace SseRedis

/-- Outcome of one `response.write(...)` call. -/
inductive WriteOutcome
  | ok
  | failed
  | threw
deriving DecidableEq, Repr

/-- The SSE transport handle (`this.response`): an identity plus the
scripted outcomes of its successive writes. -/
structure Transport where
  tid : Nat
  outcomes : List WriteOutcome
deriving DecidableEq, Repr

/-- One `response.write(msg)` call: consume the next scripted outcome
(an exhausted script keeps succeeding). -/
def Transport.write (t : Transport) ( _msg : String) : Transport × WriteOutcome :=
  match t.outcomes with
  | [] => (t, WriteOutcome.ok)
  | o :: rest => ({ t with outcomes := rest }, o)

/-- The next outcome `Transport.write` will produce. -/
def Transport.nextOutcome (t : Transport) : WriteOutcome :=
  match t.outcomes with
  | [] => WriteOutcome.ok
  | o :: _ => o

/-- Observable side effects of the operations. -/
inductive Effect
  | write (tid : Nat) (payload : String)
  | endTransport (tid : Nat)
  | cancelTimer (timerId : Nat)
  | registryLookup (clientName : Option String)
deriving DecidableEq, Repr

/-- State of one `ConnectionEntry` object (fields of the JS class). -/
structure ConnectionEntry where
  clientName : String
  transport : Transport
  podName : String
  connectedAt : Nat
  lastActivity : Nat
  heartbeatInterval : Option Nat
  eventCount : Nat
  isAlive : Bool
deriving DecidableEq, Repr

/-- `connection.getStats()` result shape. -/
structure Stats where
  clientName : String
  podName : String
  connectedAt : Nat
  lastActivity : Nat
  eventCount : Nat
  isAlive : Bool
  uptime : Nat
deriving DecidableEq, Repr

/-- JS `Map.get`. -/
def jsMapGet {α β : Type} [DecidableEq α] : List (α × β) → α → Option β
  | [], _ => none
  | (k', v') :: rest, k => if k' = k then some v' else jsMapGet rest k

/-- JS `Map.set`: update the existing key in place, else append. -/
def jsMapSet {α β : Type} [DecidableEq α] : List (α × β) → α → β → List (α × β)
  | [], k, v => [(k, v)]
  | (k', v') :: rest, k, v =>
    if k' = k then (k, v) :: rest else (k', v') :: jsMapSet rest k v

/-- JS `Map.delete` (keys are unique in a JS `Map`, so removing every
occurrence of the key coincides with removing the entry). -/
def jsMapDelete {α β : Type} [DecidableEq α] : List (α × β) → α → List (α × β)
  | [], _ => []
  | (k', v') :: rest, k =>
    if k' = k then jsMapDelete rest k else (k', v') :: jsMapDelete rest k

/-- Number of stored pairs under a given key. -/
def countKey {α β : Type} [DecidableEq α] : List (α × β) → α → Nat
  | [], _ => 0
  | (k', _) :: rest, k => (if k' = k then 1 else 0) + countKey rest k

/-- Whole-process state: the heap of `ConnectionEntry` objects, the
registry's `connections` map (clientName → entry id), a fresh-id counter
for newly allocated entries, and the clock. -/
structure World where
  heap : List (Nat × ConnectionEntry)
  connections : List (String × Nat)
  nextId : Nat
  now : Nat
deriving DecidableEq, Repr

/-- `registry.get(clientName)`. -/
def ConnectionRegistry.get (w : World) (clientName : String) : Option Nat :=
  jsMapGet w.connections clientName

/-- `registry.has(clientName)`. -/
def ConnectionRegistry.hasClient (w : World) (clientName : String) : Bool :=
  (jsMapGet w.connections clientName).isSome

/-- `registry.count()`. -/
def ConnectionRegistry.count (w : World) : Nat :=
  w.connections.length

/-- `registry.remove(clientName)`: delete if present, report whether it
existed. -/
def ConnectionRegistry.remove (w : World) (clientName : String) : World × Bool :=
  ({ w with connections := jsMapDelete w.connections clientName },
   (jsMapGet w.connections clientName).isSome)

/-- `this.isAlive = false; clearInterval; this.heartbeatInterval = null`. -/
def closedVersion (e : ConnectionEntry) : ConnectionEntry :=
  { e with isAlive := false, heartbeatInterval := none }

/-- The `clearInterval` effect of `close()`: only fired when
`this.heartbeatInterval` is non-null. -/
def cancelEffects (e : ConnectionEntry) : List Effect :=
  match e.heartbeatInterval with
  | some timerId => [Effect.cancelTimer timerId]
  | none => []

/-- `ConnectionEntry.close()`: guarded by `isAlive`; marks the entry
closed, cancels the heartbeat timer, ends the response (best effort) and
removes the entry's clientName from the owning registry. -/
def ConnectionEntry.close (w : World) (eid : Nat) : World × List Effect :=
  match jsMapGet w.heap eid with
  | none => (w, [])
  | some e =>
    if e.isAlive then
      ((ConnectionRegistry.remove
          { w with heap := jsMapSet w.heap eid (closedVersion e) }
          e.clientName).1,
       cancelEffects e ++ [Effect.endTransport e.transport.tid])
    else (w, [])

/-- Inbound bus record shape (`JSON.parse` result); absent JSON fields
are `none`. -/
structure EventRecord where
  clientName : Option String
  action : Option String
  eventId : Option String
  timestamp : Option String
  data : Option String
deriving DecidableEq, Repr

/-- Stands in for `JSON.stringify(event)`; the claims never inspect the
payload text, only that the serialized event is what gets written. -/
def serializeEvent (ev : EventRecord) : String :=
  "json:" ++ (ev.clientName.getD "") ++ ":" ++ (ev.action.getD "")

/-- The SSE frame `sendEvent` writes: `data: ${JSON.stringify(event)}\n\n`. -/
def sseMessage (ev : EventRecord) : String :=
  "data: " ++ serializeEvent ev

/-- `ConnectionEntry.sendEvent(event)`: failure-fast on a dead entry;
otherwise one non-blocking write, closing the connection when the write
returns false or throws, and bumping `eventCount` / `lastActivity` on
success. -/
def ConnectionEntry.sendEvent (w : World) (eid : Nat) (ev : EventRecord) :
    World × List Effect × Bool :=
  match jsMapGet w.heap eid with
  | none => (w, [], false)
  | some e =>
    if e.isAlive then
      match e.transport.write (sseMessage ev) with
      | (t', WriteOutcome.ok) =>
        ({ w with heap := (jsMapSet w.heap eid
            { e with transport := t',
                     eventCount := e.eventCount + 1,
                     lastActivity := w.now }) },
         [Effect.write e.transport.tid (sseMessage ev)], true)
      | (t', WriteOutcome.failed) =>
        let r := ConnectionEntry.close
          { w with heap := jsMapSet w.heap eid ({ e with transport := t' }) } eid
        (r.1, Effect.write e.transport.tid (sseMessage ev) :: r.2, false)
      | (t', WriteOutcome.threw) =>
        let r := ConnectionEntry.close
          { w with heap := jsMapSet w.heap eid ({ e with transport := t' }) } eid
        (r.1, Effect.write e.transport.tid (sseMessage ev) :: r.2, false)
    else (w, [], false)

/-- One firing of the heartbeat `setInterval` callback: guarded by
`isAlive`, writes a keepalive comment, and closes on a false return or a
thrown error. -/
def ConnectionEntry.heartbeatTick (w : World) (eid : Nat) : World × List Effect :=
  match jsMapGet w.heap eid with
  | none => (w, [])
  | some e =>
    if e.isAlive then
      match e.transport.write (": heartbeat " ++ toString w.now) with
      | (t', WriteOutcome.ok) =>
        ({ w with heap := jsMapSet w.heap eid ({ e with transport := t' }) },
         [Effect.write e.transport.tid (": heartbeat " ++ toString w.now)])
      | (t', WriteOutcome.failed) =>
        let r := ConnectionEntry.close
          { w with heap := jsMapSet w.heap eid ({ e with transport := t' }) } eid
        (r.1, Effect.write e.transport.tid (": heartbeat " ++ toString w.now) :: r.2)
      | (t', WriteOutcome.threw) =>
        let r := ConnectionEntry.close
          { w with heap := jsMapSet w.heap eid ({ e with transport := t' }) } eid
        (r.1, Effect.write e.transport.tid (": heartbeat " ++ toString w.now) :: r.2)
    else (w, [])

/-- `ConnectionEntry.updateActivity()`: `this.lastActivity = new Date()`
(note: the source has no liveness guard here). -/
def ConnectionEntry.updateActivity (w : World) (eid : Nat) : World :=
  match jsMapGet w.heap eid with
  | none => w
  | some e =>
    { w with heap := jsMapSet w.heap eid ({ e with lastActivity := w.now }) }

/-- `ConnectionEntry.getStats()` (uptime in whole seconds; the clock is
in milliseconds like `Date.now()`). -/
def ConnectionEntry.getStats (e : ConnectionEntry) (now : Nat) : Stats :=
  { clientName := e.clientName
    podName := e.podName
    connectedAt := e.connectedAt
    lastActivity := e.lastActivity
    eventCount := e.eventCount
    isAlive := e.isAlive
    uptime := (now - e.connectedAt) / 1000 }

/-- `new ConnectionEntry(clientName, response, podName, registry)`: field
initialisation; the constructor also installs the disconnect handlers and
starts the heartbeat interval (handle = entry id). -/
def newConnectionEntry (clientName : String) (t : Transport) (podName : String)
    (now : Nat) (eid : Nat) : ConnectionEntry :=
  { clientName := clientName
    transport := t
    podName := podName
    connectedAt := now
    lastActivity := now
    heartbeatInterval := some eid
    eventCount := 0
    isAlive := true }

/-- The eviction prelude of `register`: if the clientName is taken, close
the old connection and delete the key. -/
def evictIfPresent (w : World) (clientName : String) : World × List Effect :=
  match jsMapGet w.connections clientName with
  | some oldId =>
    let r := ConnectionEntry.close w oldId
    ({ r.1 with connections := jsMapDelete r.1.connections clientName }, r.2)
  | none => (w, [])

/-- `registry.register(clientName, response, podName)`: evict any existing
entry for the key, then allocate and store a fresh `ConnectionEntry`,
returning its id. -/
def ConnectionRegistry.register (w : World) (clientName : String)
    (t : Transport) (podName : String) : World × List Effect × Nat :=
  let r := evictIfPresent w clientName
  ({ heap := jsMapSet r.1.heap r.1.nextId
       (newConnectionEntry clientName t podName r.1.now r.1.nextId)
     connections := jsMapSet r.1.connections clientName r.1.nextId
     nextId := r.1.nextId + 1
     now := r.1.now },
   r.2, r.1.nextId)

/-- `close()` iterated N times (for the idempotence claim); effect traces
are concatenated. -/
def closeN (w : World) (eid : Nat) : Nat → World × List Effect
  | 0 => (w, [])
  | n + 1 =>
    let r := ConnectionEntry.close w eid
    let r2 := closeN r.1 eid n
    (r2.1, r.2 ++ r2.2)

/-- A raw bus message after `JSON.parse`: either the parse threw, or it
produced a record. -/
inductive RawMessage
  | malformed
  | record (ev : EventRecord)
deriving DecidableEq, Repr

/-- JS truthiness test `!event.clientName` on an optional string field:
true when the field is absent or the empty string. -/
def jsFalsyStr : Option String → Bool
  | none => true
  | some s => s == ""

/-- The registry lookup `routeToClient` performs (`has` then `get` consult
the same `Map`; a missing field behaves like an absent key). -/
def optKeyGet (w : World) : Option String → Option Nat
  | none => none
  | some clientName => jsMapGet w.connections clientName

/-- `RedisSubscriber.routeToClient(event)`: look the target up in the
registry; absent → drop; present → delegate to `sendEvent` (the send
result is only logged, never retried). -/
def RedisSubscriber.routeToClient (w : World) (ev : EventRecord) :
    World × List Effect :=
  match optKeyGet w ev.clientName with
  | none => (w, [Effect.registryLookup ev.clientName])
  | some eid =>
    let r := ConnectionEntry.sendEvent w eid ev
    (r.1, Effect.registryLookup ev.clientName :: r.2.1)

/-- `RedisSubscriber.handleMessage(channel, message)`: parse, validate
`event.clientName`, then route; parse failures are caught inside. -/
def RedisSubscriber.handleMessage (w : World) (msg : RawMessage) :
    World × List Effect :=
  match msg with
  | RawMessage.malformed => (w, [])
  | RawMessage.record ev =>
    if jsFalsyStr ev.clientName then (w, [])
    else RedisSubscriber.routeToClient w ev

/-- `this.maxReconnectAttempts = 10`. -/
def maxReconnectAttempts : Nat := 10

/-- The ioredis `retryStrategy(times)` closure: `null` (stop retrying)
past the attempt cap, otherwise `min(times * 100, 2000)` milliseconds. -/
def retryStrategy (maxAttempts : Nat) (times : Nat) : Option Nat :=
  if times > maxAttempts then none
  else some (min (times * 100) 2000)

/-- The C1 scenario: `register(name, T1)` then `register(name, T2)`;
returns the final world and the two entry ids. -/
def registerTwice (w : World) (clientName : String) (t1 t2 : Transport)
    (pod : String) : World × Nat × Nat :=
  let r1 := ConnectionRegistry.register w clientName t1 pod
  let r2 := ConnectionRegistry.register r1.1 clientName t2 pod
  (r2.1, r1.2.2, r2.2.2)

/-! ### Concrete example states (used to instantiate the theorems) -/

/-- A `ConnectionEntry` that has already been closed. -/
def deadEntryEx : ConnectionEntry :=
  { clientName := "A"
    transport := { tid := 7, outcomes := [] }
    podName := "pod-1"
    connectedAt := 0
    lastActivity := 0
    heartbeatInterval := none
    eventCount := 3
    isAlive := false }

/-- A world holding only the closed entry, with the clock advanced. -/
def deadWorldEx : World :=
  { heap := [(0, deadEntryEx)], connections := [], nextId := 1, now := 5 }

/-- An alive, registered entry whose next transport write will fail. -/
def fragileEntryEx : ConnectionEntry :=
  { clientName := "A"
    transport := { tid := 7, outcomes := [WriteOutcome.failed] }
    podName := "pod-1"
    connectedAt := 0
    lastActivity := 0
    heartbeatInterval := some 0
    eventCount := 0
    isAlive := true }

/-- A world holding the fragile entry, registered under its name. -/
def fragileWorldEx : World :=
  { heap := [(0, fragileEntryEx)], connections := [("A", 0)], nextId := 1,
    now := 5 }

/-- An alive, registered entry whose writes keep succeeding. -/
def healthyEntryEx : ConnectionEntry :=
  { clientName := "A"
    transport := { tid := 7, outcomes := [] }
    podName := "pod-1"
    connectedAt := 0
    lastActivity := 0
    heartbeatInterval := some 0
    eventCount := 4
    isAlive := true }

/-- A world holding the healthy entry, registered under its name. -/
def healthyWorldEx : World :=
  { heap := [(0, healthyEntryEx)], connections := [("A", 0)], nextId := 1,
    now := 5 }

/-- A world with no connections at all. -/
def emptyWorldEx : World :=
  { heap := [], connections := [], nextId := 0, now := 0 }

/-- A well-formed bus record addressed to client `A`. -/
def eventEx : EventRecord :=
  { clientName := some "A", action := some "restart", eventId := some "e1",
    timestamp := some "2024-01-01T00:00:00Z", data := none }

/-- A well-formed bus record addressed to client `B`. -/
def eventBEx : EventRecord :=
  { clientName := some "B", action := some "restart", eventId := some "e2",
    timestamp := some "2024-01-01T00:00:00Z", data := none }

/-- A bus record whose `clientName` field holds the empty string. -/
def emptyNameEventEx : EventRecord :=
  { clientName := some "", action := some "restart", eventId := some "e3",
    timestamp := some "2024-01-01T00:00:00Z", data := none }

/-! ### Association-list (JS `Map`) lemmas -/

theorem jsMapGet_set_self {α β : Type} [DecidableEq α] (m : List (α × β))
    (k : α) (v : β) : jsMapGet (jsMapSet m k v) k = some v := by
  induction m with
  | nil => simp [jsMapSet, jsMapGet]
  | cons p rest ih =>
    obtain ⟨k', v'⟩ := p
    by_cases h : k' = k
    · subst h; simp [jsMapSet, jsMapGet]
    · simp [jsMapSet, jsMapGet, h, ih]

theorem jsMapGet_set_ne {α β : Type} [DecidableEq α] (m : List (α × β))
    (k k' : α) (v : β) (h : k' ≠ k) :
    jsMapGet (jsMapSet m k v) k' = jsMapGet m k' := by
  have hk : ¬ k = k' := fun hh => h hh.symm
  induction m with
  | nil => simp [jsMapSet, jsMapGet, hk]
  | cons p rest ih =>
    obtain ⟨a, b⟩ := p
    by_cases ha : a = k
    · subst ha
      simp [jsMapSet, jsMapGet, hk]
    · simp only [jsMapSet, if_neg ha]
      by_cases ha' : a = k'
      · simp [jsMapGet, ha']
      · simp [jsMapGet, ha', ih]

theorem jsMapGet_delete_self {α β : Type} [DecidableEq α] (m : List (α × β))
    (k : α) : jsMapGet (jsMapDelete m k) k = none := by
  induction m with
  | nil => simp [jsMapDelete, jsMapGet]
  | cons p rest ih =>
    obtain ⟨a, b⟩ := p
    by_cases h : a = k
    · simp [jsMapDelete, h, ih]
    · simp [jsMapDelete, jsMapGet, h, ih]

theorem countKey_delete_self {α β : Type} [DecidableEq α] (m : List (α × β))
    (k : α) : countKey (jsMapDelete m k) k = 0 := by
  induction m with
  | nil => simp [jsMapDelete, countKey]
  | cons p rest ih =>
    obtain ⟨a, b⟩ := p
    by_cases h : a = k
    · simp [jsMapDelete, h, ih]
    · simp [jsMapDelete, countKey, h, ih]

theorem countKey_set_of_zero {α β : Type} [DecidableEq α] (m : List (α × β))
    (k : α) (v : β) (h : countKey m k = 0) :
    countKey (jsMapSet m k v) k = 1 := by
  induction m with
  | nil => simp [jsMapSet, countKey]
  | cons p rest ih =>
    obtain ⟨a, b⟩ := p
    by_cases ha : a = k
    · simp [countKey, ha] at h
    · simp only [countKey, if_neg ha, Nat.zero_add] at h
      simp [jsMapSet, countKey, ha, ih h]

/-! ### `close()` structure lemmas -/

theorem close_none (w : World) (eid : Nat)
    (h : jsMapGet w.heap eid = none) :
    ConnectionEntry.close w eid = (w, []) := by
  unfold ConnectionEntry.close
  rw [h]

theorem close_of_closed (w : World) (eid : Nat) (e : ConnectionEntry)
    (hget : jsMapGet w.heap eid = some e) (hdead : e.isAlive = false) :
    ConnectionEntry.close w eid = (w, []) := by
  unfold ConnectionEntry.close
  rw [hget]
  simp [hdead]

theorem close_alive (w : World) (eid : Nat) (e : ConnectionEntry)
    (hget : jsMapGet w.heap eid = some e) (halive : e.isAlive = true) :
    ConnectionEntry.close w eid =
      (({ heap := jsMapSet w.heap eid (closedVersion e)
          connections := jsMapDelete w.connections e.clientName
          nextId := w.nextId
          now := w.now } : World),
       cancelEffects e ++ [Effect.endTransport e.transport.tid]) := by
  unfold ConnectionEntry.close ConnectionRegistry.remove
  rw [hget]
  simp [halive]

theorem close_nextId (w : World) (eid : Nat) :
    (ConnectionEntry.close w eid).1.nextId = w.nextId := by
  rcases hget : jsMapGet w.heap eid with _ | e
  · rw [close_none w eid hget]
  · rcases halive : e.isAlive with _ | _
    · rw [close_of_closed w eid e hget halive]
    · rw [close_alive w eid e hget halive]

theorem close_now (w : World) (eid : Nat) :
    (ConnectionEntry.close w eid).1.now = w.now := by
  rcases hget : jsMapGet w.heap eid with _ | e
  · rw [close_none w eid hget]
  · rcases halive : e.isAlive with _ | _
    · rw [close_of_closed w eid e hget halive]
    · rw [close_alive w eid e hget halive]

theorem close_idem_step (w : World) (eid : Nat) :
    ConnectionEntry.close (ConnectionEntry.close w eid).1 eid =
      ((ConnectionEntry.close w eid).1, []) := by
  rcases hget : jsMapGet w.heap eid with _ | e
  · rw [close_none w eid hget]
    exact close_none w eid hget
  · rcases halive : e.isAlive with _ | _
    · rw [close_of_closed w eid e hget halive]
      exact close_of_closed w eid e hget halive
    · rw [close_alive w eid e hget halive]
      exact close_of_closed _ eid (closedVersion e)
        (jsMapGet_set_self w.heap eid (closedVersion e)) rfl

theorem closeN_succ_eq_close (eid : Nat) :
    ∀ (n : Nat) (w : World),
      closeN w eid (n + 1) = ConnectionEntry.close w eid := by
  intro n
  induction n with
  | zero => intro w; simp [closeN]
  | succ n ih =>
    intro w
    have step : closeN w eid (n + 1 + 1) =
        ((closeN (ConnectionEntry.close w eid).1 eid (n + 1)).1,
         (ConnectionEntry.close w eid).2 ++
           (closeN (ConnectionEntry.close w eid).1 eid (n + 1)).2) := rfl
    rw [step, ih, close_idem_step]
    simp

/-! ### `sendEvent` / heartbeat structure lemmas -/

theorem Transport.write_tid (t : Transport) (m : String) :
    (t.write m).1.tid = t.tid := by
  obtain ⟨tid, outs⟩ := t
  cases outs <;> rfl

theorem sendEvent_closed_noop (w : World) (eid : Nat) (e : ConnectionEntry)
    (ev : EventRecord) (hget : jsMapGet w.heap eid = some e)
    (hdead : e.isAlive = false) :
    ConnectionEntry.sendEvent w eid ev = (w, [], false) := by
  unfold ConnectionEntry.sendEvent
  rw [hget]
  simp [hdead]

theorem tick_closed_noop (w : World) (eid : Nat) (e : ConnectionEntry)
    (hget : jsMapGet w.heap eid = some e) (hdead : e.isAlive = false) :
    ConnectionEntry.heartbeatTick w eid = (w, []) := by
  unfold ConnectionEntry.heartbeatTick
  rw [hget]
  simp [hdead]

theorem sendEvent_fail_eq (w : World) (eid : Nat) (e : ConnectionEntry)
    (ev : EventRecord)
    (hget : jsMapGet w.heap eid = some e)
    (halive : e.isAlive = true)
    (hfail : e.transport.nextOutcome ≠ WriteOutcome.ok) :
    ConnectionEntry.sendEvent w eid ev =
      ((ConnectionEntry.close
          { w with heap := (jsMapSet w.heap eid
              { e with transport := (e.transport.write (sseMessage ev)).1 }) }
          eid).1,
       Effect.write e.transport.tid (sseMessage ev) ::
         (ConnectionEntry.close
            { w with heap := (jsMapSet w.heap eid
                { e with transport := (e.transport.write (sseMessage ev)).1 }) }
            eid).2,
       false) := by
  unfold ConnectionEntry.sendEvent
  rw [hget]
  rcases houts : e.transport.outcomes with _ | ⟨o, rest⟩
  · exact absurd (by unfold Transport.nextOutcome; rw [houts]) hfail
  · cases o with
    | ok => exact absurd (by unfold Transport.nextOutcome; rw [houts]) hfail
    | failed => simp [halive, Transport.write, houts]
    | threw => simp [halive, Transport.write, houts]

theorem sendEvent_ok_eq (w : World) (eid : Nat) (e : ConnectionEntry)
    (ev : EventRecord)
    (hget : jsMapGet w.heap eid = some e)
    (halive : e.isAlive = true)
    (hok : e.transport.nextOutcome = WriteOutcome.ok) :
    ConnectionEntry.sendEvent w eid ev =
      ({ w with heap := (jsMapSet w.heap eid
          { e with transport := (e.transport.write (sseMessage ev)).1,
                   eventCount := e.eventCount + 1,
                   lastActivity := w.now }) },
       [Effect.write e.transport.tid (sseMessage ev)], true) := by
  unfold ConnectionEntry.sendEvent
  rw [hget]
  rcases houts : e.transport.outcomes with _ | ⟨o, rest⟩
  · simp [halive, Transport.write, houts]
  · have ho : o = WriteOutcome.ok := by
      have hh := hok
      unfold Transport.nextOutcome at hh
      rw [houts] at hh
      exact hh
    subst ho
    simp [halive, Transport.write, houts]

/-! ### `register()` structure lemmas -/

theorem register_shape (w : World) (clientName : String) (t : Transport)
    (pod : String) :
    ∃ h c effs,
      ConnectionRegistry.register w clientName t pod =
        (({ heap := (jsMapSet h w.nextId
              (newConnectionEntry clientName t pod w.now w.nextId))
            connections := jsMapSet c clientName w.nextId
            nextId := w.nextId + 1
            now := w.now } : World), effs, w.nextId) := by
  unfold ConnectionRegistry.register evictIfPresent
  rcases hc : jsMapGet w.connections clientName with _ | oldId
  · exact ⟨w.heap, w.connections, [], rfl⟩
  · refine ⟨(ConnectionEntry.close w oldId).1.heap,
      jsMapDelete (ConnectionEntry.close w oldId).1.connections clientName,
      (ConnectionEntry.close w oldId).2, ?_⟩
    simp [close_nextId, close_now]

theorem register_evict_eq (w : World) (clientName : String) (t : Transport)
    (pod : String) (eid : Nat) (e : ConnectionEntry)
    (hc : jsMapGet w.connections clientName = some eid)
    (hh : jsMapGet w.heap eid = some e)
    (ha : e.isAlive = true)
    (hn : e.clientName = clientName) :
    ConnectionRegistry.register w clientName t pod =
      (({ heap := (jsMapSet (jsMapSet w.heap eid (closedVersion e)) w.nextId
            (newConnectionEntry clientName t pod w.now w.nextId))
          connections := (jsMapSet
            (jsMapDelete (jsMapDelete w.connections clientName) clientName)
            clientName w.nextId)
          nextId := w.nextId + 1
          now := w.now } : World),
       cancelEffects e ++ [Effect.endTransport e.transport.tid], w.nextId) := by
  unfold ConnectionRegistry.register evictIfPresent
  rw [hc]
  dsimp only
  rw [close_alive w eid e hh ha, hn]

/-! ### Claim theorems -/

/-- C1: for every starting state, `register(name, T1)` followed by
`register(name, T2)` leaves the first entry closed (still wrapping T1),
the registry with exactly one entry under the clientName, and `get(name)`
returning the id of the second entry, which is alive and wraps T2. -/
theorem register_evicts_and_replaces (w : World) (clientName : String)
    (t1 t2 : Transport) (pod : String) :
    (jsMapGet (registerTwice w clientName t1 t2 pod).1.heap
        (registerTwice w clientName t1 t2 pod).2.1).map
      (fun x => (x.isAlive, x.transport)) = some (false, t1) ∧
    countKey (registerTwice w clientName t1 t2 pod).1.connections clientName = 1 ∧
    ConnectionRegistry.get (registerTwice w clientName t1 t2 pod).1 clientName =
      some (registerTwice w clientName t1 t2 pod).2.2 ∧
    (jsMapGet (registerTwice w clientName t1 t2 pod).1.heap
        (registerTwice w clientName t1 t2 pod).2.2).map
      (fun x => (x.isAlive, x.transport)) = some (true, t2) := by
  obtain ⟨H, C, effs, hr1⟩ := register_shape w clientName t1 pod
  have h2 := register_evict_eq
    ({ heap := (jsMapSet H w.nextId
         (newConnectionEntry clientName t1 pod w.now w.nextId))
       connections := jsMapSet C clientName w.nextId
       nextId := w.nextId + 1
       now := w.now } : World)
    clientName t2 pod w.nextId
    (newConnectionEntry clientName t1 pod w.now w.nextId)
    (jsMapGet_set_self _ _ _) (jsMapGet_set_self _ _ _) rfl rfl
  unfold registerTwice
  dsimp only
  rw [hr1]
  dsimp only
  rw [h2]
  dsimp only
  refine ⟨?_, ?_, ?_, ?_⟩
  · rw [jsMapGet_set_ne _ _ _ _ (Nat.ne_of_lt (Nat.lt_succ_self _)),
      jsMapGet_set_self]
    rfl
  · exact countKey_set_of_zero _ _ _ (countKey_delete_self _ _)
  · unfold ConnectionRegistry.get
    rw [jsMapGet_set_self]
  · rw [jsMapGet_set_self]
    rfl

/-- C2 is refuted at a concrete input: `updateActivity` carries no
liveness guard, so calling it on a Closed entry overwrites
`lastActivity` with the current time (0 becomes 5 here), contradicting
"no subsequent operation on a Closed entry mutates any of its fields". -/
theorem updateActivity_mutates_closed_entry :
    deadEntryEx.isAlive = false ∧
    (jsMapGet deadWorldEx.heap 0).map (fun x => x.lastActivity) = some 0 ∧
    (jsMapGet (ConnectionEntry.updateActivity deadWorldEx 0).heap 0).map
      (fun x => x.lastActivity) = some 5 :=
  ⟨rfl, rfl, rfl⟩

/-- C2 (amended): on a Closed entry, every public operation except
`updateActivity` is a no-op or reports failure with no state change and
no transport action: `sendEvent` returns failure and changes nothing,
`close` is a no-op, and a heartbeat tick does nothing; `updateActivity`,
however, is unguarded and mutates `lastActivity` even when Closed. -/
theorem closed_entry_ops_noop (w : World) (eid : Nat) (e : ConnectionEntry)
    (ev : EventRecord) (hget : jsMapGet w.heap eid = some e)
    (hdead : e.isAlive = false) :
    ConnectionEntry.sendEvent w eid ev = (w, [], false) ∧
    ConnectionEntry.close w eid = (w, []) ∧
    ConnectionEntry.heartbeatTick w eid = (w, []) :=
  ⟨sendEvent_closed_noop w eid e ev hget hdead,
   close_of_closed w eid e hget hdead,
   tick_closed_noop w eid e hget hdead⟩

/-- Witness for the amended C2 at a concrete closed entry. -/
theorem closed_entry_ops_noop_witness :
    ConnectionEntry.sendEvent deadWorldEx 0 eventBEx = (deadWorldEx, [], false) ∧
    ConnectionEntry.close deadWorldEx 0 = (deadWorldEx, []) ∧
    ConnectionEntry.heartbeatTick deadWorldEx 0 = (deadWorldEx, []) :=
  closed_entry_ops_noop deadWorldEx 0 deadEntryEx eventBEx rfl rfl

/-- C3: on an Alive entry whose next transport write fails (returns false
or throws), `sendEvent` returns failure, the entry becomes Closed with
its heartbeat timer cancelled, the transport is terminated, and the
clientName is deregistered, so `getStats().isAlive` is false and a
registry lookup for the name is absent. -/
theorem sendEvent_write_failure_closes_and_deregisters
    (w : World) (eid : Nat) (e : ConnectionEntry) (ev : EventRecord)
    (hget : jsMapGet w.heap eid = some e)
    (halive : e.isAlive = true)
    (hfail : e.transport.nextOutcome ≠ WriteOutcome.ok) :
    (ConnectionEntry.sendEvent w eid ev).2.2 = false ∧
    (jsMapGet (ConnectionEntry.sendEvent w eid ev).1.heap eid).map
      (fun x => x.isAlive) = some false ∧
    (jsMapGet (ConnectionEntry.sendEvent w eid ev).1.heap eid).map
      (fun x => x.heartbeatInterval) = some none ∧
    Effect.endTransport e.transport.tid ∈
      (ConnectionEntry.sendEvent w eid ev).2.1 ∧
    jsMapGet (ConnectionEntry.sendEvent w eid ev).1.connections e.clientName =
      none ∧
    (jsMapGet (ConnectionEntry.sendEvent w eid ev).1.heap eid).map
      (fun x => (ConnectionEntry.getStats x
        (ConnectionEntry.sendEvent w eid ev).1.now).isAlive) = some false := by
  rw [sendEvent_fail_eq w eid e ev hget halive hfail]
  have hget1 : jsMapGet
      (jsMapSet w.heap eid
        { e with transport := (e.transport.write (sseMessage ev)).1 }) eid =
      some { e with transport := (e.transport.write (sseMessage ev)).1 } :=
    jsMapGet_set_self _ _ _
  rw [close_alive _ eid
    { e with transport := (e.transport.write (sseMessage ev)).1 } hget1 halive]
  refine ⟨rfl, ?_, ?_, ?_, ?_, ?_⟩
  · rw [jsMapGet_set_self]
    rfl
  · rw [jsMapGet_set_self]
    rfl
  · simp [cancelEffects, Transport.write_tid]
  · dsimp only
    rw [jsMapGet_delete_self]
  · rw [jsMapGet_set_self]
    rfl

/-- Witness for C3: the fragile entry's scripted write failure closes and
deregisters it. -/
theorem sendEvent_write_failure_witness :
    (ConnectionEntry.sendEvent fragileWorldEx 0 eventEx).2.2 = false ∧
    (jsMapGet (ConnectionEntry.sendEvent fragileWorldEx 0 eventEx).1.heap 0).map
      (fun x => x.isAlive) = some false ∧
    (jsMapGet (ConnectionEntry.sendEvent fragileWorldEx 0 eventEx).1.heap 0).map
      (fun x => x.heartbeatInterval) = some none ∧
    Effect.endTransport fragileEntryEx.transport.tid ∈
      (ConnectionEntry.sendEvent fragileWorldEx 0 eventEx).2.1 ∧
    jsMapGet (ConnectionEntry.sendEvent fragileWorldEx 0 eventEx).1.connections
      fragileEntryEx.clientName = none ∧
    (jsMapGet (ConnectionEntry.sendEvent fragileWorldEx 0 eventEx).1.heap 0).map
      (fun x => (ConnectionEntry.getStats x
        (ConnectionEntry.sendEvent fragileWorldEx 0 eventEx).1.now).isAlive) =
      some false :=
  sendEvent_write_failure_closes_and_deregisters fragileWorldEx 0 fragileEntryEx
    eventEx rfl rfl (by decide)

/-- C4: `sendEvent` on a Closed entry returns failure and has no side
effect at all: the world is unchanged and no effect (in particular no
transport write) is produced. -/
theorem sendEvent_on_closed_entry (w : World) (eid : Nat) (e : ConnectionEntry)
    (ev : EventRecord) (hget : jsMapGet w.heap eid = some e)
    (hdead : e.isAlive = false) :
    ConnectionEntry.sendEvent w eid ev = (w, [], false) :=
  sendEvent_closed_noop w eid e ev hget hdead

/-- Witness for C4 at a concrete closed entry. -/
theorem sendEvent_on_closed_entry_witness :
    ConnectionEntry.sendEvent deadWorldEx 0 eventEx = (deadWorldEx, [], false) :=
  sendEvent_on_closed_entry deadWorldEx 0 deadEntryEx eventEx rfl rfl

/-- C5: `close()` is idempotent: invoking it N ≥ 1 times produces exactly
the state and effect trace of invoking it once (the second and later
calls change nothing and emit no timer cancellation, no transport action
and no removal). -/
theorem close_idempotent (w : World) (eid : Nat) (n : Nat) (h : 1 ≤ n) :
    closeN w eid n = ConnectionEntry.close w eid := by
  obtain ⟨m, rfl⟩ := Nat.exists_eq_add_of_le h
  rw [Nat.add_comm 1 m]
  exact closeN_succ_eq_close eid m w

/-- Witness for C5: closing the fragile entry twice equals closing once. -/
theorem close_idempotent_witness :
    closeN fragileWorldEx 0 2 = ConnectionEntry.close fragileWorldEx 0 :=
  close_idempotent fragileWorldEx 0 2 (by decide)

/-- C6: a raw bus message that fails to parse, or whose parsed record has
a falsy `clientName`, is dropped: `handleMessage` returns the world
unchanged with an empty effect trace (no registry lookup, no mutation),
and being a total function it lets no exception escape. -/
theorem handleMessage_invalid_dropped (w : World) (msg : RawMessage)
    (hbad : msg = RawMessage.malformed ∨
      ∃ ev, msg = RawMessage.record ev ∧ jsFalsyStr ev.clientName = true) :
    RedisSubscriber.handleMessage w msg = (w, []) := by
  rcases hbad with h | ⟨ev, h, hf⟩
  · subst h; rfl
  · subst h
    simp [RedisSubscriber.handleMessage, hf]

/-- Witness for C6 at a concrete malformed message. -/
theorem handleMessage_invalid_dropped_witness :
    RedisSubscriber.handleMessage emptyWorldEx RawMessage.malformed =
      (emptyWorldEx, []) :=
  handleMessage_invalid_dropped emptyWorldEx RawMessage.malformed (Or.inl rfl)

/-- C7: routing a well-formed record whose target identity is not in the
registry leaves the world untouched (every entry, its state, counters and
the registry map unchanged); the only observable event is the lookup, and
no fault is raised since the router is a total function. -/
theorem routeToClient_absent_target_frame (w : World) (ev : EventRecord)
    (clientName : String)
    (hname : ev.clientName = some clientName)
    (habs : jsMapGet w.connections clientName = none) :
    RedisSubscriber.routeToClient w ev =
      (w, [Effect.registryLookup ev.clientName]) := by
  simp [RedisSubscriber.routeToClient, optKeyGet, hname, habs]

/-- Witness for C7: a record for the unregistered client `B`. -/
theorem routeToClient_absent_target_frame_witness :
    RedisSubscriber.routeToClient emptyWorldEx eventBEx =
      (emptyWorldEx, [Effect.registryLookup eventBEx.clientName]) :=
  routeToClient_absent_target_frame emptyWorldEx eventBEx "B" rfl rfl

/-- C8: on an Alive entry whose write succeeds, `sendEvent` returns
success, increments `eventCount` by exactly one, sets `lastActivity` to
the current time, leaves the entry Alive and the registry map unchanged,
and performs exactly the one serialized-event write. -/
theorem sendEvent_success_effects (w : World) (eid : Nat) (e : ConnectionEntry)
    (ev : EventRecord)
    (hget : jsMapGet w.heap eid = some e)
    (halive : e.isAlive = true)
    (hok : e.transport.nextOutcome = WriteOutcome.ok) :
    (ConnectionEntry.sendEvent w eid ev).2.2 = true ∧
    jsMapGet (ConnectionEntry.sendEvent w eid ev).1.heap eid =
      some { e with transport := (e.transport.write (sseMessage ev)).1,
                    eventCount := e.eventCount + 1,
                    lastActivity := w.now } ∧
    (jsMapGet (ConnectionEntry.sendEvent w eid ev).1.heap eid).map
      (fun x => x.isAlive) = some true ∧
    (ConnectionEntry.sendEvent w eid ev).1.connections = w.connections ∧
    (ConnectionEntry.sendEvent w eid ev).2.1 =
      [Effect.write e.transport.tid (sseMessage ev)] := by
  rw [sendEvent_ok_eq w eid e ev hget halive hok]
  refine ⟨rfl, ?_, ?_, rfl, rfl⟩
  · exact jsMapGet_set_self _ _ _
  · rw [jsMapGet_set_self]
    simp [halive]

/-- Witness for C8 on the healthy registered entry. -/
theorem sendEvent_success_effects_witness :
    (ConnectionEntry.sendEvent healthyWorldEx 0 eventEx).2.2 = true ∧
    jsMapGet (ConnectionEntry.sendEvent healthyWorldEx 0 eventEx).1.heap 0 =
      some { healthyEntryEx with
               transport := (healthyEntryEx.transport.write (sseMessage eventEx)).1,
               eventCount := healthyEntryEx.eventCount + 1,
               lastActivity := healthyWorldEx.now } ∧
    (jsMapGet (ConnectionEntry.sendEvent healthyWorldEx 0 eventEx).1.heap 0).map
      (fun x => x.isAlive) = some true ∧
    (ConnectionEntry.sendEvent healthyWorldEx 0 eventEx).1.connections =
      healthyWorldEx.connections ∧
    (ConnectionEntry.sendEvent healthyWorldEx 0 eventEx).2.1 =
      [Effect.write healthyEntryEx.transport.tid (sseMessage eventEx)] :=
  sendEvent_success_effects healthyWorldEx 0 healthyEntryEx eventEx rfl rfl rfl

/-- C9: with the default cap of 10, the retry policy returns the delay
`min(times * 100, 2000)` for every attempt number up to the cap, and
stops retrying (returns `null`) for every attempt number past the cap. -/
theorem retryStrategy_policy (times : Nat) ( _hpos : 1 ≤ times) :
    (times ≤ maxReconnectAttempts →
      retryStrategy maxReconnectAttempts times =
        some (min (times * 100) 2000)) ∧
    (maxReconnectAttempts < times →
      retryStrategy maxReconnectAttempts times = none) := by
  constructor
  · intro hle
    unfold maxReconnectAttempts at hle
    unfold retryStrategy maxReconnectAttempts
    rw [if_neg (by omega)]
  · intro hgt
    unfold maxReconnectAttempts at hgt
    unfold retryStrategy maxReconnectAttempts
    rw [if_pos (by omega)]

/-- Witness for C9 at attempts 3 (delay 300ms) and 11 (stop). -/
theorem retryStrategy_policy_witness :
    retryStrategy maxReconnectAttempts 3 = some (min (3 * 100) 2000) ∧
    retryStrategy maxReconnectAttempts 11 = none :=
  ⟨(retryStrategy_policy 3 (by decide)).1 (by decide),
   (retryStrategy_policy 11 (by decide)).2 (by decide)⟩

/-- C10: a record whose `clientName` field is present but holds the empty
string is dropped by the same falsy guard as a record missing the field:
both produce no registry lookup and no mutation, so a client registered
under a falsy-looking name is unreachable via the bus. -/
theorem falsy_clientName_dropped (w : World) (ev : EventRecord)
    (hempty : ev.clientName = some "") :
    RedisSubscriber.handleMessage w (RawMessage.record ev) = (w, []) ∧
    RedisSubscriber.handleMessage w
      (RawMessage.record { ev with clientName := none }) = (w, []) := by
  constructor
  · simp [RedisSubscriber.handleMessage, jsFalsyStr, hempty]
  · simp [RedisSubscriber.handleMessage, jsFalsyStr]

/-- Witness for C10 at a concrete empty-string record. -/
theorem falsy_clientName_dropped_witness :
    RedisSubscriber.handleMessage emptyWorldEx
      (RawMessage.record emptyNameEventEx) = (emptyWorldEx, []) ∧
    RedisSubscriber.handleMessage emptyWorldEx
      (RawMessage.record { emptyNameEventEx with clientName := none }) =
      (emptyWorldEx, []) :=
  falsy_clientName_dropped emptyWorldEx emptyNameEventEx rfl

end SseRedis
